import Mathlib

/-!
Shallow embedding of the Google Calendar provider-adapter mapping layer
(`providers/google-calendar/utils.ts` and the domain interfaces it maps to).

Conventions of the embedding:
* Optional TypeScript fields become `Option` fields; JavaScript string
  truthiness (`if (x)`, `x && ...`, `x || y`) is modelled by `truthy`,
  which is false exactly on a missing or empty string.
* The external platform facilities (the Temporal date library, the URL
  constructor used by `toJoinUrl`, the regex engine behind `extractUrls`,
  and the `detectMeetingLink` service from the meeting-links package) are
  not part of this fragment; they are universally quantified parameters
  (`tj`, `extract`, `detect`) or abstract constructors (`TemporalValue`),
  so every theorem holds for every behaviour of those collaborators.
* TypeScript non-null assertions (`x!`) are type-level only; at runtime the
  value flows through unchanged, so such fields stay `Option` here.
* A runtime crash (destructuring `undefined`, `Temporal.*.from(undefined)`)
  is modelled by returning `none` from the enclosing parser; an explicit
  `throw new Error` is modelled by `Except.error`.
* The TypeScript field `end` is spelled `endTime` (`end` is a Lean keyword).
-/

/-- JavaScript truthiness of an optional string: false for `undefined` and
for the empty string. -/
def truthy : Option String → Bool
  | none => false
  | some s => s != ""

/-- Models a conditional object spread `...(x && { f: x })`: the field is
present exactly when the optional string is truthy. -/
def keepTruthy (o : Option String) : Option String :=
  if truthy o then o else none

/-- Models `a || b` on an optional string with a string default. -/
def orElseStr (a : Option String) (b : String) : String :=
  if truthy a then a.getD "" else b

/-- Models JavaScript `s.startsWith(p)`. (Expressed on the character
lists so that concrete instances evaluate by kernel reduction.) -/
def strStartsWith (s p : String) : Bool :=
  p.data.isPrefixOf s.data

/-- Substring occurrence on character lists. -/
def listContains (l pat : List Char) : Bool :=
  pat.isPrefixOf l ||
    match l with
    | [] => false
    | _ :: rest => listContains rest pat

/-- Models JavaScript `s.includes(pat)` (substring containment). -/
def includesSubstr (s pat : String) : Bool :=
  listContains s.data pat.data

/-- Models JavaScript `s.toLowerCase()` (ASCII case folding). -/
def toLowerStr (s : String) : String :=
  ⟨s.data.map Char.toLower⟩

/-! ## Domain model (`interfaces/events.ts`, `interfaces/calendars.ts`) -/

/-- Attendee status of the domain model. -/
inductive AttendeeStatus
  | accepted
  | tentative
  | declined
  | unknown
  deriving DecidableEq, Repr

/-- Attendee type of the domain model. -/
inductive AttendeeType
  | required
  | optional
  | resource
  deriving DecidableEq, Repr

/-- Domain attendee. -/
structure Attendee where
  id : Option String := none
  email : Option String := none
  name : Option String := none
  status : AttendeeStatus
  type : AttendeeType
  comment : Option String := none
  additionalGuests : Option Nat := none
  deriving DecidableEq, Repr

/-- A join URL `{ value, label? }` of a conference entry point. -/
structure JoinUrl where
  value : String
  label : Option String := none
  deriving DecidableEq, Repr

/-- A conference entry point of the domain model: a join URL plus optional
`meetingCode`/`accessCode`/`password` credentials (data model §3). -/
structure ConferenceEntryPoint where
  joinUrl : JoinUrl
  meetingCode : Option String := none
  accessCode : Option String := none
  password : Option String := none
  deriving DecidableEq, Repr

/-- Domain conference: optional video and sip entry points and a list of
phone entry points. -/
structure Conference where
  id : Option String := none
  conferenceId : Option String := none
  name : Option String := none
  video : Option ConferenceEntryPoint := none
  sip : Option ConferenceEntryPoint := none
  phone : Option (List ConferenceEntryPoint) := none
  extra : Option (List (String × String)) := none
  deriving DecidableEq, Repr

/-- Domain calendar. Fields obtained through a non-null assertion in the
source keep their runtime `Option` type. -/
structure Calendar where
  id : String
  providerId : String := "google"
  name : Option String := none
  description : Option String := none
  timeZone : Option String := none
  primary : Option Bool := none
  accountId : String := ""
  color : Option String := none
  readOnly : Bool := false
  deriving DecidableEq, Repr

/-- A Temporal value as produced or consumed by the mapping layer: a plain
calendar date, a bare instant, or a timezone-aware zoned date-time. The
carried strings are the Temporal wire representations; Temporal parsing and
formatting themselves are outside this fragment. -/
inductive TemporalValue
  | plainDate (date : String)
  | instant (dateTime : String)
  | zonedDateTime (dateTime : String) (timeZone : String)
  deriving DecidableEq, Repr

/-- The attendee's own response to an event (`CalendarEvent.response`). -/
structure ResponseInfo where
  status : AttendeeStatus
  comment : Option String := none
  deriving DecidableEq, Repr

/-! ## Google Calendar wire model (`providers/google-calendar/interfaces`) -/

/-- Google attendee response status enumeration. -/
inductive GoogleCalendarEventAttendeeResponseStatus
  | needsAction
  | accepted
  | tentative
  | declined
  deriving DecidableEq, Repr

/-- Google event attendee. Boolean flags are truthiness-normalised. -/
structure GoogleCalendarEventAttendee where
  id : Option String := none
  email : Option String := none
  displayName : Option String := none
  responseStatus : GoogleCalendarEventAttendeeResponseStatus
  self : Bool := false
  resource : Bool := false
  optional : Bool := false
  comment : Option String := none
  additionalGuests : Option Nat := none
  deriving DecidableEq, Repr

/-- Google start/end field. A `GoogleCalendarDate` is the case where only
`date` is set; a `GoogleCalendarDateTime` has `dateTime` and possibly
`timeZone`. The source casts between the two views of one payload. -/
structure GoogleCalendarDateTime where
  date : Option String := none
  dateTime : Option String := none
  timeZone : Option String := none
  deriving DecidableEq, Repr

/-- Key of a Google conference solution. -/
structure GoogleCalendarEventConferenceSolutionKey where
  type : String
  deriving DecidableEq, Repr

/-- Google conference solution. -/
structure GoogleCalendarEventConferenceSolution where
  name : String
  key : GoogleCalendarEventConferenceSolutionKey
  deriving DecidableEq, Repr

/-- Google conference entry point, with both current and legacy credential
field names. -/
structure GoogleCalendarEventEntryPoint where
  entryPointType : String
  uri : Option String := none
  label : Option String := none
  meetingCode : Option String := none
  accessCode : Option String := none
  password : Option String := none
  passcode : Option String := none
  pin : Option String := none
  deriving DecidableEq, Repr

/-- Google conference data attached to an event. -/
structure GoogleCalendarEventConferenceData where
  conferenceId : Option String := none
  conferenceSolution : Option GoogleCalendarEventConferenceSolution := none
  entryPoints : Option (List GoogleCalendarEventEntryPoint) := none
  parameters : Option (List (String × String)) := none
  deriving DecidableEq, Repr

/-- Source attachment of a Google event. -/
structure GoogleCalendarEventAttachment where
  fileUrl : Option String := none
  deriving DecidableEq, Repr

/-- `source` field of a Google event. -/
structure GoogleCalendarEventSource where
  url : Option String := none
  title : Option String := none
  deriving DecidableEq, Repr

/-- Legacy `gadget` field of a Google event. -/
structure GoogleCalendarEventGadget where
  link : Option String := none
  deriving DecidableEq, Repr

/-- Google Calendar event payload (the fields this fragment reads). -/
structure GoogleCalendarEvent where
  id : Option String := none
  summary : Option String := none
  description : Option String := none
  location : Option String := none
  status : Option String := none
  htmlLink : Option String := none
  hangoutLink : Option String := none
  start : Option GoogleCalendarDateTime := none
  endTime : Option GoogleCalendarDateTime := none
  attendees : Option (List GoogleCalendarEventAttendee) := none
  conferenceData : Option GoogleCalendarEventConferenceData := none
  source : Option GoogleCalendarEventSource := none
  attachments : Option (List GoogleCalendarEventAttachment) := none
  gadget : Option GoogleCalendarEventGadget := none
  deriving DecidableEq, Repr

/-- Google calendar-list entry. -/
structure GoogleCalendarCalendarListEntry where
  id : Option String := none
  summary : Option String := none
  summaryOverride : Option String := none
  description : Option String := none
  timeZone : Option String := none
  accessRole : Option String := none
  backgroundColor : Option String := none
  primary : Option Bool := none
  deriving DecidableEq, Repr

/-- Result of the external meeting-link detector: a known conferencing
service `{ id, name, joinUrl }` (spec §6). -/
structure MeetingService where
  id : String
  name : String
  joinUrl : String
  deriving DecidableEq, Repr

/-- Domain calendar event produced by inbound event mapping. -/
structure CalendarEvent where
  id : Option String := none
  title : Option String := none
  description : Option String := none
  start : TemporalValue
  endTime : TemporalValue
  allDay : Bool
  location : Option String := none
  status : Option String := none
  attendees : List Attendee := []
  url : Option String := none
  providerId : String := "google"
  accountId : String
  calendarId : String
  readOnly : Bool
  conference : Option Conference := none
  response : Option ResponseInfo := none
  deriving DecidableEq, Repr

/-! ## Attendee status maps -/

/-- Outbound attendee status map (`toGoogleCalendarAttendeeResponseStatus`):
`unknown ↦ needsAction`, every other status to itself. -/
def toGoogleCalendarAttendeeResponseStatus :
    AttendeeStatus → GoogleCalendarEventAttendeeResponseStatus
  | .unknown => .needsAction
  | .accepted => .accepted
  | .tentative => .tentative
  | .declined => .declined

/-- Inbound attendee status map (`parseGoogleCalendarAttendeeStatus`):
`needsAction ↦ unknown`, every other status to itself. -/
def parseGoogleCalendarAttendeeStatus :
    GoogleCalendarEventAttendeeResponseStatus → AttendeeStatus
  | .needsAction => .unknown
  | .accepted => .accepted
  | .tentative => .tentative
  | .declined => .declined

/-- `parseGoogleCalendarAttendeeType`: resource beats optional beats
required. -/
def parseGoogleCalendarAttendeeType (attendee : GoogleCalendarEventAttendee) :
    AttendeeType :=
  if attendee.resource then .resource
  else if attendee.optional then .optional
  else .required

/-- `parseGoogleCalendarAttendee`. -/
def parseGoogleCalendarAttendee (attendee : GoogleCalendarEventAttendee) :
    Attendee :=
  { id := attendee.id
    email := attendee.email
    name := attendee.displayName
    status := parseGoogleCalendarAttendeeStatus attendee.responseStatus
    type := parseGoogleCalendarAttendeeType attendee
    comment := attendee.comment
    additionalGuests := attendee.additionalGuests }

/-! ## Conference normalisation, outbound -/

/-- The `entryPoints.push` block for the video entry of
`toGoogleCalendarConferenceData`: zero or one entry, guarded by the
truthiness of `conference.video?.joinUrl?.value`. -/
def videoEntriesOf (tj : String → String) (conference : Conference) :
    List GoogleCalendarEventEntryPoint :=
  match conference.video with
  | some video =>
    if video.joinUrl.value != "" then
      [{ entryPointType := "video"
         uri := some video.joinUrl.value
         meetingCode := keepTruthy video.meetingCode
         accessCode := keepTruthy video.meetingCode
         password := keepTruthy video.password
         passcode := keepTruthy video.password
         label := some (orElseStr video.joinUrl.label (tj video.joinUrl.value)) }]
    else []
  | none => []

/-- The `entryPoints.push` block for the sip entry of
`toGoogleCalendarConferenceData`. -/
def sipEntriesOf (conference : Conference) :
    List GoogleCalendarEventEntryPoint :=
  match conference.sip with
  | some sip =>
    if sip.joinUrl.value != "" then
      [{ entryPointType := "sip"
         uri := some sip.joinUrl.value
         meetingCode := keepTruthy sip.meetingCode
         accessCode := keepTruthy sip.meetingCode
         password := keepTruthy sip.password
         passcode := keepTruthy sip.password
         label := sip.joinUrl.label }]
    else []
  | none => []

/-- One outbound phone entry of `toGoogleCalendarConferenceData`: the URI
is `tel:`-normalised. -/
def phoneEntryOf (phoneEntry : ConferenceEntryPoint) :
    GoogleCalendarEventEntryPoint :=
  { entryPointType := "phone"
    uri := some (if strStartsWith phoneEntry.joinUrl.value "tel:" then
        phoneEntry.joinUrl.value
      else "tel:" ++ phoneEntry.joinUrl.value)
    label := some (orElseStr phoneEntry.joinUrl.label phoneEntry.joinUrl.value)
    accessCode := keepTruthy phoneEntry.accessCode
    pin := keepTruthy phoneEntry.accessCode }

/-- The `conference.phone.forEach` block of
`toGoogleCalendarConferenceData`, guarded by `conference.phone?.length`. -/
def phoneEntriesOf (conference : Conference) :
    List GoogleCalendarEventEntryPoint :=
  match conference.phone with
  | some phones => if phones.length > 0 then phones.map phoneEntryOf else []
  | none => []

/-- Outbound conference mapping (`toGoogleCalendarConferenceData`).
`tj` stands for the platform-backed `toJoinUrl` URL-shortening helper
(a `URL`-based function outside this fragment), used only for the video
entry's default label. -/
def toGoogleCalendarConferenceData (tj : String → String)
    (conference : Conference) : GoogleCalendarEventConferenceData :=
  let entryPoints :=
    videoEntriesOf tj conference ++ sipEntriesOf conference
      ++ phoneEntriesOf conference
  let conferenceSolutionType :=
    if truthy conference.name then
      if includesSubstr (toLowerStr (conference.name.getD "")) "google" then
        "hangoutsMeet"
      else "addOn"
    else "hangoutsMeet"
  { conferenceId := conference.conferenceId
    conferenceSolution := some
      { name := conference.name.getD "Google Meet"
        key := { type := conferenceSolutionType } }
    entryPoints := if entryPoints.length > 0 then some entryPoints else none
    parameters := conference.extra }

/-! ## Conference normalisation, inbound -/

/-- The Conference object the fallback scan builds around a detected
meeting service. -/
def checkMeetingLink (detect : String → Option MeetingService)
    (url : String) : Option Conference :=
  (detect url).map fun service =>
    { id := some service.id
      name := some service.name
      video := some
        { joinUrl := { value := service.joinUrl }
          meetingCode := some service.id } }

/-- Inbound fallback conference detection
(`parseGoogleCalendarConferenceFallback`): scan the legacy hangout link,
the description, the location, the source URL, the attachments and the
legacy gadget link in order, returning on the first URL the detector
recognises. `extract` stands for the regex-based `extractUrls` helper. -/
def parseGoogleCalendarConferenceFallback
    (detect : String → Option MeetingService)
    (extract : String → List String)
    (event : GoogleCalendarEvent) : Option Conference :=
  (if truthy event.hangoutLink then
    checkMeetingLink detect (event.hangoutLink.getD "") else none) <|>
  (if truthy event.description then
    (extract (event.description.getD "")).findSome? (checkMeetingLink detect)
   else none) <|>
  (if truthy event.location then
    (extract (event.location.getD "")).findSome? (checkMeetingLink detect)
   else none) <|>
  (if truthy (event.source.bind (·.url)) then
    checkMeetingLink detect ((event.source.bind (·.url)).getD "") else none) <|>
  ((event.attachments.getD []).findSome? fun attachment =>
    if truthy attachment.fileUrl then
      checkMeetingLink detect (attachment.fileUrl.getD "")
    else none) <|>
  (if truthy (event.gadget.bind (·.link)) then
    checkMeetingLink detect ((event.gadget.bind (·.link)).getD "") else none)

/-- `id` field of the structured inbound parse: detector id of the video
entry's URI (`videoEntryPoint?.uri ? detectMeetingLink(...)?.id :
undefined`). -/
def parsedVideoId (detect : String → Option MeetingService)
    (entryPoints : List GoogleCalendarEventEntryPoint) : Option String :=
  match entryPoints.find? (·.entryPointType == "video") with
  | some v => if truthy v.uri then (detect (v.uri.getD "")).map (·.id)
      else none
  | none => none

/-- `video` field of the structured inbound parse: the first video-typed
entry point, when its URI is truthy. -/
def parsedVideoEntry (entryPoints : List GoogleCalendarEventEntryPoint) :
    Option ConferenceEntryPoint :=
  match entryPoints.find? (·.entryPointType == "video") with
  | some v =>
    if truthy v.uri then
      some { joinUrl := { label := v.label, value := v.uri.getD "" }
             meetingCode := v.meetingCode
             accessCode := v.accessCode
             password := v.password }
    else none
  | none => none

/-- `sip` field of the structured inbound parse: the first sip-typed entry
point, when its URI is truthy. -/
def parsedSipEntry (entryPoints : List GoogleCalendarEventEntryPoint) :
    Option ConferenceEntryPoint :=
  match entryPoints.find? (·.entryPointType == "sip") with
  | some s =>
    if truthy s.uri then
      some { joinUrl := { label := s.label, value := s.uri.getD "" }
             meetingCode := s.meetingCode
             accessCode := s.accessCode
             password := s.password }
    else none
  | none => none

/-- `phone` field of the structured inbound parse: all phone-typed entry
points with a truthy URI. -/
def parsedPhoneEntries (entryPoints : List GoogleCalendarEventEntryPoint) :
    Option (List ConferenceEntryPoint) :=
  let phoneEntryPoints := entryPoints.filter fun e =>
    e.entryPointType == "phone" && truthy e.uri
  if phoneEntryPoints.length > 0 then
    some (phoneEntryPoints.map fun entryPoint =>
      { joinUrl := { label := entryPoint.label
                     value := entryPoint.uri.getD "" }
        meetingCode := entryPoint.meetingCode
        accessCode := entryPoint.accessCode
        password := entryPoint.password })
  else none

/-- Inbound conference parsing (`parseGoogleCalendarConferenceData`): the
structured branch when the payload has entry points, the fallback scan
otherwise. -/
def parseGoogleCalendarConferenceData
    (detect : String → Option MeetingService)
    (extract : String → List String)
    (event : GoogleCalendarEvent) : Option Conference :=
  let entryPoints := (event.conferenceData.bind (·.entryPoints)).getD []
  if entryPoints.length = 0 then
    parseGoogleCalendarConferenceFallback detect extract event
  else
    some
      { id := parsedVideoId detect entryPoints
        conferenceId := event.conferenceData.bind (·.conferenceId)
        name := (event.conferenceData.bind (·.conferenceSolution)).map (·.name)
        video := parsedVideoEntry entryPoints
        sip := parsedSipEntry entryPoints
        phone := parsedPhoneEntries entryPoints }

/-! ## Date and event parsing -/

/-- `parseDate`: read the `date` component as a plain calendar date.
`none` models the runtime crash on a missing component. -/
def parseDate (g : GoogleCalendarDateTime) : Option TemporalValue :=
  g.date.map .plainDate

/-- `parseDateTime`: an instant from `dateTime`, upgraded to a zoned
date-time when a truthy `timeZone` is present. -/
def parseDateTime (g : GoogleCalendarDateTime) : Option TemporalValue :=
  g.dateTime.map fun dt =>
    if truthy g.timeZone then .zonedDateTime dt (g.timeZone.getD "")
    else .instant dt

/-- `parseResponseStatus`: response of the attendee flagged `self`, if
any. -/
def parseResponseStatus (event : GoogleCalendarEvent) : Option ResponseInfo :=
  ((event.attendees.getD []).find? (·.self)).map fun selfAttendee =>
    { status := parseGoogleCalendarAttendeeStatus selfAttendee.responseStatus
      comment := selfAttendee.comment }

/-- All-day test of `parseGoogleCalendarEvent`:
`!event.start?.dateTime`. -/
def eventIsAllDay (event : GoogleCalendarEvent) : Bool :=
  !truthy (event.start.bind (·.dateTime))

/-- The parsed `start` field of `parseGoogleCalendarEvent`:
`isAllDay ? parseDate(event.start) : parseDateTime(event.start)`. -/
def eventStartValue (event : GoogleCalendarEvent) : Option TemporalValue :=
  if eventIsAllDay event then event.start.bind parseDate
  else event.start.bind parseDateTime

/-- The parsed `end` field of `parseGoogleCalendarEvent`. -/
def eventEndValue (event : GoogleCalendarEvent) : Option TemporalValue :=
  if eventIsAllDay event then event.endTime.bind parseDate
  else event.endTime.bind parseDateTime

/-- Inbound event mapping (`parseGoogleCalendarEvent`). `none` models a
runtime crash while parsing the start or end field. -/
def parseGoogleCalendarEvent (detect : String → Option MeetingService)
    (extract : String → List String) (calendar : Calendar)
    (accountId : String) (event : GoogleCalendarEvent) :
    Option CalendarEvent :=
  let isAllDay := eventIsAllDay event
  let response := parseResponseStatus event
  match eventStartValue event, eventEndValue event with
  | some s, some e =>
    some
      { id := event.id
        title := event.summary
        description := event.description
        start := s
        endTime := e
        allDay := isAllDay
        location := event.location
        status := event.status
        attendees := (event.attendees.getD []).map parseGoogleCalendarAttendee
        url := event.htmlLink
        providerId := "google"
        accountId := accountId
        calendarId := calendar.id
        readOnly := calendar.readOnly
        conference := parseGoogleCalendarConferenceData detect extract event
        response := response }
  | _, _ => none

/-! ## Outbound event mapping and calendar-list parsing -/

/-- `toGoogleCalendarDate`: a plain date becomes `{date}`, an instant
`{dateTime}`, a zoned date-time `{dateTime, timeZone}` (Temporal string
formatting is modelled as the identity on the stored text). -/
def toGoogleCalendarDate : TemporalValue → GoogleCalendarDateTime
  | .plainDate d => { date := some d }
  | .instant dt => { dateTime := some dt }
  | .zonedDateTime dt tz => { dateTime := some dt, timeZone := some tz }

/-- Create/update event input (`CreateEventInput | UpdateEventInput`).
`id` is present exactly on the update variant. -/
structure EventInput where
  id : Option String := none
  title : Option String := none
  description : Option String := none
  location : Option String := none
  start : TemporalValue
  endTime : TemporalValue
  conference : Option Conference := none
  deriving DecidableEq, Repr

/-- Provider-shaped event request body. -/
structure GoogleCalendarEventCreateParams where
  id : Option String := none
  summary : Option String := none
  description : Option String := none
  location : Option String := none
  start : GoogleCalendarDateTime
  endTime : GoogleCalendarDateTime
  conferenceData : Option GoogleCalendarEventConferenceData := none
  conferenceDataVersion : Nat
  deriving DecidableEq, Repr

/-- Outbound event mapping (`toGoogleCalendarEvent`). -/
def toGoogleCalendarEvent (tj : String → String) (event : EventInput) :
    GoogleCalendarEventCreateParams :=
  { id := event.id
    summary := event.title
    description := event.description
    location := event.location
    start := toGoogleCalendarDate event.start
    endTime := toGoogleCalendarDate event.endTime
    conferenceData := event.conference.map (toGoogleCalendarConferenceData tj)
    conferenceDataVersion := 1 }

/-- `parseGoogleCalendarCalendarListEntry`: aborts with an error when the
entry id is falsy, otherwise builds the domain calendar. -/
def parseGoogleCalendarCalendarListEntry (accountId : String)
    (entry : GoogleCalendarCalendarListEntry) : Except String Calendar :=
  if !truthy entry.id then .error "Calendar ID is missing"
  else .ok
    { id := entry.id.getD ""
      name := entry.summaryOverride <|> entry.summary
      description := entry.description
      timeZone := entry.timeZone
      primary := entry.primary
      readOnly := entry.accessRole == some "reader"
        || entry.accessRole == some "freeBusyReader"
      providerId := "google"
      accountId := accountId
      color := entry.backgroundColor }

/-! ## General lemmas about the outbound entry-point list -/

/-- The outbound entry-point list, with the empty-list-to-`undefined`
normalisation undone: it is always the video entries followed by the sip
entries followed by the phone entries. -/
theorem entryPoints_getD (tj : String → String) (c : Conference) :
    (toGoogleCalendarConferenceData tj c).entryPoints.getD []
      = videoEntriesOf tj c ++ sipEntriesOf c ++ phoneEntriesOf c := by
  unfold toGoogleCalendarConferenceData
  by_cases h :
      (videoEntriesOf tj c ++ sipEntriesOf c ++ phoneEntriesOf c).length > 0
  · simp only [h, if_pos, Option.getD_some]
  · simp only [h, if_neg, Option.getD_none]
    have h0 :
        (videoEntriesOf tj c ++ sipEntriesOf c ++ phoneEntriesOf c).length
          = 0 := Nat.eq_zero_of_not_pos h
    exact (List.length_eq_zero.mp h0).symm

/-- Every video entry the outbound map emits has entry point type
`"video"`. -/
theorem videoEntriesOf_type (tj : String → String) (c : Conference) :
    ∀ e ∈ videoEntriesOf tj c, e.entryPointType = "video" := by
  unfold videoEntriesOf
  rcases c.video with _ | v
  · intro e he; cases he
  · by_cases h : v.joinUrl.value != "" <;> simp [h]

/-- Every sip entry the outbound map emits has entry point type `"sip"`. -/
theorem sipEntriesOf_type (c : Conference) :
    ∀ e ∈ sipEntriesOf c, e.entryPointType = "sip" := by
  unfold sipEntriesOf
  rcases c.sip with _ | s
  · intro e he; cases he
  · by_cases h : s.joinUrl.value != "" <;> simp [h]

/-- The outbound phone entries are exactly the mapped phone list. -/
theorem phoneEntriesOf_eq_map (c : Conference) :
    phoneEntriesOf c = (c.phone.getD []).map phoneEntryOf := by
  unfold phoneEntriesOf
  rcases c.phone with _ | l
  · rfl
  · rcases l with _ | ⟨p, ps⟩ <;> simp

/-- Filtering a list for phone-typed entries keeps none of the video or
sip entries and all of the phone entries. -/
theorem filter_phone_entryPoints (tj : String → String) (c : Conference) :
    ((toGoogleCalendarConferenceData tj c).entryPoints.getD []).filter
        (fun e => e.entryPointType == "phone")
      = (c.phone.getD []).map phoneEntryOf := by
  rw [entryPoints_getD, List.filter_append, List.filter_append]
  have hv : (videoEntriesOf tj c).filter
      (fun e => e.entryPointType == "phone") = [] := by
    rw [List.filter_eq_nil_iff]
    intro e he
    have := videoEntriesOf_type tj c e he
    simp [this]
  have hs : (sipEntriesOf c).filter
      (fun e => e.entryPointType == "phone") = [] := by
    rw [List.filter_eq_nil_iff]
    intro e he
    have := sipEntriesOf_type c e he
    simp [this]
  have hp : (phoneEntriesOf c).filter
      (fun e => e.entryPointType == "phone") = phoneEntriesOf c := by
    rw [List.filter_eq_self]
    intro e he
    rw [phoneEntriesOf_eq_map] at he
    rcases List.mem_map.mp he with ⟨p, _, rfl⟩
    rfl
  rw [hv, hs, hp, phoneEntriesOf_eq_map, List.nil_append, List.nil_append]

/-! ## Claim C6 -/

/-- C6: the outbound attendee-status map sends `unknown` to `needsAction`
and every other status to itself; the inbound map sends `needsAction` to
`unknown` and every other status to itself; the two maps are mutually
inverse on all statuses. -/
theorem attendee_status_maps_mutually_inverse :
    (∀ s, parseGoogleCalendarAttendeeStatus
        (toGoogleCalendarAttendeeResponseStatus s) = s)
    ∧ (∀ g, toGoogleCalendarAttendeeResponseStatus
        (parseGoogleCalendarAttendeeStatus g) = g)
    ∧ toGoogleCalendarAttendeeResponseStatus .unknown = .needsAction
    ∧ parseGoogleCalendarAttendeeStatus .needsAction = .unknown
    ∧ toGoogleCalendarAttendeeResponseStatus .accepted = .accepted
    ∧ toGoogleCalendarAttendeeResponseStatus .tentative = .tentative
    ∧ toGoogleCalendarAttendeeResponseStatus .declined = .declined
    ∧ parseGoogleCalendarAttendeeStatus .accepted = .accepted
    ∧ parseGoogleCalendarAttendeeStatus .tentative = .tentative
    ∧ parseGoogleCalendarAttendeeStatus .declined = .declined :=
  ⟨fun s => by cases s <;> rfl, fun g => by cases g <;> rfl,
    rfl, rfl, rfl, rfl, rfl, rfl, rfl, rfl⟩

/-! ## Claim C10 -/

/-- C10: every request body built by `toGoogleCalendarEvent` — with or
without conference data on the input — has `conferenceDataVersion` set
to 1. -/
theorem toGoogleCalendarEvent_conferenceDataVersion :
    ∀ (tj : String → String) (event : EventInput),
      (toGoogleCalendarEvent tj event).conferenceDataVersion = 1 :=
  fun _ _ => rfl

/-! ## Claim C8 -/

/-- C8: `parseGoogleCalendarCalendarListEntry` aborts with the
"Calendar ID is missing" error exactly when the entry id is falsy
(absent or empty), and succeeds exactly otherwise. -/
theorem calendarListEntry_fails_iff_id_missing :
    ∀ (accountId : String) (entry : GoogleCalendarCalendarListEntry),
      (parseGoogleCalendarCalendarListEntry accountId entry
          = .error "Calendar ID is missing" ↔ truthy entry.id = false)
      ∧ ((∃ cal, parseGoogleCalendarCalendarListEntry accountId entry
          = .ok cal) ↔ truthy entry.id = true) := by
  intro accountId entry
  unfold parseGoogleCalendarCalendarListEntry
  cases h : truthy entry.id <;> simp [h]

/-! ## Claim C7 -/

/-- Conference input holding the bare phone number of spec §8. -/
def phoneConfA : Conference :=
  { phone := some [{ joinUrl := { value := "15551234567" } }] }

/-- Conference input holding an already-`tel:`-prefixed phone number. -/
def phoneConfB : Conference :=
  { phone := some [{ joinUrl := { value := "tel:555" } }] }

/-- C7: every outbound phone entry's URI is the input join-URL value when
it already starts with `tel:` and `tel:` prepended to it otherwise; in
particular `"15551234567"` maps to `"tel:15551234567"` and `"tel:555"` is
unchanged. -/
theorem phone_uri_tel_normalised :
    (∀ (tj : String → String) (c : Conference),
      (((toGoogleCalendarConferenceData tj c).entryPoints.getD []).filter
          (fun e => e.entryPointType == "phone")).map (·.uri)
        = (c.phone.getD []).map (fun p =>
            some (if strStartsWith p.joinUrl.value "tel:" then p.joinUrl.value
              else "tel:" ++ p.joinUrl.value)))
    ∧ ((toGoogleCalendarConferenceData id phoneConfA).entryPoints.getD
        []).map (·.uri) = [some "tel:15551234567"]
    ∧ ((toGoogleCalendarConferenceData id phoneConfB).entryPoints.getD
        []).map (·.uri) = [some "tel:555"] := by
  refine ⟨fun tj c => ?_, by decide, by decide⟩
  rw [filter_phone_entryPoints, List.map_map]
  rfl

/-! ## Claim C5 -/

/-- A conference whose name is supplied but empty. -/
def emptyNameConf : Conference := { name := some "" }

/-- C5 counterexample: for the supplied name `""` — which does not contain
`"google"` — the claim demands solution type `"addOn"`, but the code
emits `"hangoutsMeet"` (the truthiness test treats the empty name as no
name); moreover the emitted solution name is `""`, not the default, so no
reading of "supplied" rescues the claim. -/
theorem solution_type_empty_name_counterexample :
    ((toGoogleCalendarConferenceData id emptyNameConf).conferenceSolution).map
        (fun sol => (sol.name, sol.key.type)) = some ("", "hangoutsMeet")
    ∧ emptyNameConf.name = some ""
    ∧ includesSubstr (toLowerStr "") "google" = false := by
  refine ⟨?_, rfl, by decide⟩
  rfl

/-- C5 (amended): the emitted solution name is the input name whenever one
is present — the empty string included — and `"Google Meet"` otherwise;
the type key is `"hangoutsMeet"` when the name is absent, empty, or
contains `"google"` case-insensitively, and `"addOn"` for any other
name. -/
theorem solution_name_and_type (tj : String → String) (c : Conference)
    (sol : GoogleCalendarEventConferenceSolution)
    (hsol : (toGoogleCalendarConferenceData tj c).conferenceSolution
      = some sol) :
    (c.name = none → sol.name = "Google Meet" ∧ sol.key.type = "hangoutsMeet")
    ∧ (∀ s, c.name = some s → sol.name = s)
    ∧ (c.name = some "" → sol.key.type = "hangoutsMeet")
    ∧ (∀ s, c.name = some s → s ≠ "" →
        includesSubstr (toLowerStr s) "google" = true →
        sol.key.type = "hangoutsMeet")
    ∧ (∀ s, c.name = some s → s ≠ "" →
        includesSubstr (toLowerStr s) "google" = false →
        sol.key.type = "addOn") := by
  unfold toGoogleCalendarConferenceData at hsol
  simp only [Option.some.injEq] at hsol
  subst hsol
  rcases hname : c.name with _ | s
  · simp [hname, truthy]
  · refine ⟨by simp, ?_, ?_, ?_, ?_⟩
    · intro t ht
      simp_all [truthy]
    · intro ht
      simp_all [truthy]
    · intro t ht hne hinc
      simp_all [truthy]
    · intro t ht hne hinc
      simp_all [truthy]

/-- Witness for the amended C5 at a concrete named, non-Google input. -/
theorem solution_name_and_type_witness :
    (toGoogleCalendarConferenceData id
        { name := some "Zoom" }).conferenceSolution
      = some { name := "Zoom", key := { type := "addOn" } }
    ∧ ({ name := "Zoom", key := { type := "addOn" } }
        : GoogleCalendarEventConferenceSolution).key.type = "addOn" :=
  ⟨rfl, (solution_name_and_type id { name := some "Zoom" }
      { name := "Zoom", key := { type := "addOn" } } rfl).2.2.2.2 "Zoom" rfl
      (by decide) (by decide)⟩

/-! ## Claim C4 -/

/-- A conference whose video entry has a password. -/
def videoPasswordConf : Conference :=
  { video := some { joinUrl := { value := "https://example.com/j" }
                    password := some "pw" } }

/-- C4 counterexample: the outbound video entry built for a video password
carries the password under `password` and `passcode`; its `pin` field is
empty, so the password is not emitted "under both `pin` and `password`" as
the claim states. -/
theorem legacy_code_fields_counterexample :
    ((toGoogleCalendarConferenceData id videoPasswordConf).entryPoints.getD
        []).map (fun e => (e.entryPointType, e.password, e.passcode, e.pin))
      = [("video", some "pw", some "pw", none)] := by
  rfl

/-- C4 (amended): every outbound video or sip entry emits its meeting code
under both `meetingCode` and `accessCode` and its password under both
`password` and `passcode` (never `pin`); every outbound phone entry emits
its access code under both `accessCode` and `pin` (never `meetingCode`,
`password` or `passcode`). -/
theorem legacy_and_current_code_fields (tj : String → String)
    (c : Conference) (e : GoogleCalendarEventEntryPoint)
    (he : e ∈ (toGoogleCalendarConferenceData tj c).entryPoints.getD []) :
    ((e.entryPointType = "video" ∨ e.entryPointType = "sip") →
      e.accessCode = e.meetingCode ∧ e.passcode = e.password ∧ e.pin = none)
    ∧ (e.entryPointType = "phone" →
      e.pin = e.accessCode ∧ e.meetingCode = none ∧ e.password = none
        ∧ e.passcode = none) := by
  rw [entryPoints_getD] at he
  rcases List.mem_append.mp he with he' | hph
  · rcases List.mem_append.mp he' with hv | hs
    · unfold videoEntriesOf at hv
      rcases hcv : c.video with _ | v
      · rw [hcv] at hv
        cases hv
      · rw [hcv] at hv
        cases hval : (v.joinUrl.value != "") <;> simp [hval] at hv
        subst hv
        simp
    · unfold sipEntriesOf at hs
      rcases hcs : c.sip with _ | s
      · rw [hcs] at hs
        cases hs
      · rw [hcs] at hs
        cases hval : (s.joinUrl.value != "") <;> simp [hval] at hs
        subst hs
        simp
  · rw [phoneEntriesOf_eq_map] at hph
    rcases List.mem_map.mp hph with ⟨p, _, rfl⟩
    simp [phoneEntryOf]

/-- Concrete conference exercising the amended C4: a video entry with both
a meeting code and a password. -/
def codeFieldsConf : Conference :=
  { video := some { joinUrl := { value := "https://example.com/j" }
                    meetingCode := some "mc", password := some "pw" } }

/-- The outbound entry the amended C4 witness inspects. -/
def codeFieldsEntry : GoogleCalendarEventEntryPoint :=
  { entryPointType := "video", uri := some "https://example.com/j"
    label := some "example.com/j"
    meetingCode := some "mc", accessCode := some "mc"
    password := some "pw", passcode := some "pw" }

/-- Witness for the amended C4 at a concrete conference with a video
meeting code and password. -/
theorem legacy_and_current_code_fields_witness :
    codeFieldsEntry ∈ (toGoogleCalendarConferenceData
        (fun _ => "example.com/j") codeFieldsConf).entryPoints.getD []
    ∧ (codeFieldsEntry.accessCode = codeFieldsEntry.meetingCode
        ∧ codeFieldsEntry.passcode = codeFieldsEntry.password
        ∧ codeFieldsEntry.pin = none) :=
  ⟨by decide, (legacy_and_current_code_fields (fun _ => "example.com/j")
      codeFieldsConf codeFieldsEntry (by decide)).1 (Or.inl rfl)⟩

/-! ## Claim C2 -/

/-- `List.findSome?` on a single candidate. -/
theorem findSome_singleton {α β : Type} (f : α → Option β) (a : α) :
    [a].findSome? f = f a := by
  cases h : f a <;> simp [List.findSome?, h]

/-- `List.findSome?` distributes over list concatenation as a
left-biased choice. -/
theorem findSome_append {α β : Type} (f : α → Option β) (l₁ l₂ : List α) :
    (l₁ ++ l₂).findSome? f = (l₁.findSome? f <|> l₂.findSome? f) := by
  induction l₁ with
  | nil => rfl
  | cons a l ih =>
    cases h : f a <;> simp [List.findSome?, h, ih]

/-- Guarded candidate segments: scanning a conditionally contributed
segment equals conditionally scanning it. -/
theorem findSome_if {α β : Type} (c : Prop) [Decidable c] (l : List α)
    (f : α → Option β) :
    (if c then l else []).findSome? f = if c then l.findSome? f else none := by
  by_cases h : c <;> simp [h]

/-- `List.findSome?` after `List.filterMap` fuses into one scan. -/
theorem findSome_filterMap {α β γ : Type} (g : α → Option β)
    (f : β → Option γ) (l : List α) :
    (l.filterMap g).findSome? f = l.findSome? (fun a => (g a).bind f) := by
  induction l with
  | nil => rfl
  | cons a l ih =>
    rcases hga : g a with _ | b
    · simp [List.filterMap_cons, hga, List.findSome?, ih]
    · cases hfb : f b <;>
        simp [List.filterMap_cons, hga, List.findSome?, hfb, ih]

/-- The ordered list of candidate URLs the fallback scan examines: the
legacy hangout link, then the URLs extracted from the description, then
from the location, then the source URL, then the attachment file URLs,
then the legacy gadget link. -/
def fallbackCandidates (extract : String → List String)
    (event : GoogleCalendarEvent) : List String :=
  (if truthy event.hangoutLink then [event.hangoutLink.getD ""] else [])
    ++ ((if truthy event.description then
          extract (event.description.getD "") else [])
    ++ ((if truthy event.location then
          extract (event.location.getD "") else [])
    ++ ((if truthy (event.source.bind (·.url)) then
          [(event.source.bind (·.url)).getD ""] else [])
    ++ (((event.attachments.getD []).filterMap fun a =>
          if truthy a.fileUrl then some (a.fileUrl.getD "") else none)
    ++ (if truthy (event.gadget.bind (·.link)) then
          [(event.gadget.bind (·.link)).getD ""] else [])))))

/-- The fallback scan is exactly the first detector hit over the ordered
candidate list. -/
theorem fallback_eq_findSome (detect : String → Option MeetingService)
    (extract : String → List String) (event : GoogleCalendarEvent) :
    parseGoogleCalendarConferenceFallback detect extract event
      = (fallbackCandidates extract event).findSome?
          (checkMeetingLink detect) := by
  unfold parseGoogleCalendarConferenceFallback fallbackCandidates
  rw [findSome_append, findSome_append, findSome_append, findSome_append,
    findSome_append]
  rw [findSome_if, findSome_if, findSome_if, findSome_if, findSome_if,
    findSome_singleton, findSome_singleton, findSome_singleton]
  rw [findSome_filterMap]
  have hatt : ((event.attachments.getD []).findSome? fun a =>
        (if truthy a.fileUrl then some (a.fileUrl.getD "") else none).bind
          (checkMeetingLink detect))
      = ((event.attachments.getD []).findSome? fun a =>
        if truthy a.fileUrl then checkMeetingLink detect (a.fileUrl.getD "")
        else none) := by
    congr 1
    funext a
    by_cases h : truthy a.fileUrl <;> simp [h]
  rw [hatt]

/-- C2: with no structured conference entry points, inbound conference
parsing is the fallback scan: the first URL of the ordered candidate list
(hangout link, description URLs, location URLs, source URL, attachment
URLs, gadget link) that the detector recognises, and in particular a
recognised hangout link beats everything that follows it. -/
theorem fallback_scan_priority (detect : String → Option MeetingService)
    (extract : String → List String) (event : GoogleCalendarEvent)
    (hempty : (event.conferenceData.bind (·.entryPoints)).getD [] = []) :
    parseGoogleCalendarConferenceData detect extract event
      = (fallbackCandidates extract event).findSome? (checkMeetingLink detect)
    ∧ (∀ hl, event.hangoutLink = some hl →
        truthy event.hangoutLink = true →
        (checkMeetingLink detect hl).isSome = true →
        parseGoogleCalendarConferenceData detect extract event
          = checkMeetingLink detect hl) := by
  have hmain : parseGoogleCalendarConferenceData detect extract event
      = (fallbackCandidates extract event).findSome?
          (checkMeetingLink detect) := by
    unfold parseGoogleCalendarConferenceData
    simp only [hempty, List.length_nil, if_pos]
    exact fallback_eq_findSome detect extract event
  refine ⟨hmain, fun hl hhl htr hsome => ?_⟩
  rcases Option.isSome_iff_exists.mp hsome with ⟨conf, hconf⟩
  rw [hmain]
  unfold fallbackCandidates
  rw [hhl] at htr ⊢
  simp only [htr, if_true, Option.getD_some, List.cons_append,
    List.nil_append]
  simp [List.findSome?, hconf]

/-- Concrete detector for the C2 witness: recognises the two sample
meeting URLs. -/
def sampleDetect : String → Option MeetingService := fun url =>
  if url == "https://meet.example/a" || url == "https://meet.example/b" then
    some { id := url, name := "Svc", joinUrl := url }
  else none

/-- Concrete URL extractor for the C2 witness: the whole text is one
URL. -/
def sampleExtract : String → List String := fun s => [s]

/-- C2 witness event: both a recognised hangout link and a recognised
description URL. -/
def hangoutAndDescriptionEvent : GoogleCalendarEvent :=
  { hangoutLink := some "https://meet.example/a"
    description := some "https://meet.example/b" }

/-- Witness for C2: on an event with both a recognised hangout link and a
recognised description URL, the hangout link wins. -/
theorem fallback_scan_priority_witness :
    (hangoutAndDescriptionEvent.conferenceData.bind
        (·.entryPoints)).getD [] = []
    ∧ parseGoogleCalendarConferenceData sampleDetect sampleExtract
        hangoutAndDescriptionEvent
      = checkMeetingLink sampleDetect "https://meet.example/a" :=
  ⟨rfl, (fallback_scan_priority sampleDetect sampleExtract
      hangoutAndDescriptionEvent rfl).2 "https://meet.example/a" rfl
      (by decide) (by decide)⟩

/-! ## Claim C3 -/

/-- With no truthy `dateTime` on the start field, the parsed start is the
plain-date parse of the `date` component. -/
theorem eventStartValue_allDay (event : GoogleCalendarEvent)
    (gs : GoogleCalendarDateTime) (hs : event.start = some gs)
    (htd : truthy gs.dateTime = false) :
    eventStartValue event = gs.date.map TemporalValue.plainDate := by
  unfold eventStartValue eventIsAllDay parseDate
  rw [hs]
  simp [htd]

/-- With no truthy `dateTime` on the start field, the parsed end is the
plain-date parse of the end's `date` component. -/
theorem eventEndValue_allDay (event : GoogleCalendarEvent)
    (gs ge : GoogleCalendarDateTime) (hs : event.start = some gs)
    (he : event.endTime = some ge) (htd : truthy gs.dateTime = false) :
    eventEndValue event = ge.date.map TemporalValue.plainDate := by
  unfold eventEndValue eventIsAllDay parseDate
  rw [hs, he]
  simp [htd]

/-- With a truthy `dateTime` on the start field, the parsed start is a
zoned date-time when the field has a truthy time zone, else an instant. -/
theorem eventStartValue_timed (event : GoogleCalendarEvent)
    (gs : GoogleCalendarDateTime) (hs : event.start = some gs)
    (htd : truthy gs.dateTime = true) :
    eventStartValue event = gs.dateTime.map (fun dt =>
      if truthy gs.timeZone then
        TemporalValue.zonedDateTime dt (gs.timeZone.getD "")
      else TemporalValue.instant dt) := by
  unfold eventStartValue eventIsAllDay parseDateTime
  rw [hs]
  simp [htd]

/-- With a truthy `dateTime` on the start field, the parsed end is a zoned
date-time or instant read from the end field. -/
theorem eventEndValue_timed (event : GoogleCalendarEvent)
    (gs ge : GoogleCalendarDateTime) (hs : event.start = some gs)
    (he : event.endTime = some ge) (htd : truthy gs.dateTime = true) :
    eventEndValue event = ge.dateTime.map (fun dt =>
      if truthy ge.timeZone then
        TemporalValue.zonedDateTime dt (ge.timeZone.getD "")
      else TemporalValue.instant dt) := by
  unfold eventEndValue eventIsAllDay parseDateTime
  rw [hs, he]
  simp [htd]

/-- C3: when the start field has no (truthy) `dateTime`, the parsed event
is all-day and start and end are plain calendar dates; when it has one,
the event is not all-day and start and end are zoned date-times when their
field carries a time-zone id and bare instants otherwise. -/
theorem allDay_detection (detect : String → Option MeetingService)
    (extract : String → List String) (calendar : Calendar)
    (accountId : String) (event : GoogleCalendarEvent) (ce : CalendarEvent)
    (gs ge : GoogleCalendarDateTime)
    (hs : event.start = some gs) (he : event.endTime = some ge)
    (hp : parseGoogleCalendarEvent detect extract calendar accountId event
      = some ce) :
    (truthy gs.dateTime = false →
      ce.allDay = true
      ∧ (∃ d, ce.start = TemporalValue.plainDate d)
      ∧ (∃ d, ce.endTime = TemporalValue.plainDate d))
    ∧ (truthy gs.dateTime = true →
      ce.allDay = false
      ∧ (∀ dt, gs.dateTime = some dt →
          ce.start = if truthy gs.timeZone then
            TemporalValue.zonedDateTime dt (gs.timeZone.getD "")
          else TemporalValue.instant dt)
      ∧ (∀ dt, ge.dateTime = some dt →
          ce.endTime = if truthy ge.timeZone then
            TemporalValue.zonedDateTime dt (ge.timeZone.getD "")
          else TemporalValue.instant dt)) := by
  have hallday : eventIsAllDay event = !truthy gs.dateTime := by
    unfold eventIsAllDay
    rw [hs]
    rfl
  unfold parseGoogleCalendarEvent at hp
  rcases hsv : eventStartValue event with _ | s <;>
    rcases hev : eventEndValue event with _ | e <;> rw [hsv, hev] at hp
  · exact Option.noConfusion hp
  · exact Option.noConfusion hp
  · exact Option.noConfusion hp
  injection hp with hp
  subst hp
  constructor
  · intro htd
    refine ⟨by simp [hallday, htd], ?_, ?_⟩
    · rw [eventStartValue_allDay event gs hs htd] at hsv
      rcases Option.map_eq_some'.mp hsv with ⟨d, _, hd⟩
      exact ⟨d, hd.symm⟩
    · rw [eventEndValue_allDay event gs ge hs he htd] at hev
      rcases Option.map_eq_some'.mp hev with ⟨d, _, hd⟩
      exact ⟨d, hd.symm⟩
  · intro htd
    refine ⟨by simp [hallday, htd], ?_, ?_⟩
    · intro dt hdt
      rw [eventStartValue_timed event gs hs htd, hdt] at hsv
      simp only [Option.map_some', Option.some.injEq] at hsv
      exact hsv.symm
    · intro dt hdt
      rw [eventEndValue_timed event gs ge hs he htd, hdt] at hev
      simp only [Option.map_some', Option.some.injEq] at hev
      exact hev.symm

/-- Trivial detector for concrete event-parsing witnesses. -/
def noDetect : String → Option MeetingService := fun _ => none

/-- Trivial URL extractor for concrete event-parsing witnesses. -/
def noExtract : String → List String := fun _ => []

/-- A calendar for concrete event-parsing witnesses. -/
def calendarStub : Calendar := { id := "cal" }

/-- An all-day event payload: start and end carry only `date`. -/
def allDayEvent : GoogleCalendarEvent :=
  { start := some { date := some "2024-01-01" }
    endTime := some { date := some "2024-01-02" } }

/-- The parse of `allDayEvent`. -/
def allDayParsed : CalendarEvent :=
  { start := TemporalValue.plainDate "2024-01-01"
    endTime := TemporalValue.plainDate "2024-01-02"
    allDay := true
    accountId := "acct"
    calendarId := "cal"
    readOnly := false }

/-- Witness for C3 on a concrete all-day event. -/
theorem allDay_detection_witness :
    parseGoogleCalendarEvent noDetect noExtract calendarStub "acct"
        allDayEvent = some allDayParsed
    ∧ (allDayParsed.allDay = true
      ∧ (∃ d, allDayParsed.start = TemporalValue.plainDate d)
      ∧ (∃ d, allDayParsed.endTime = TemporalValue.plainDate d)) :=
  ⟨rfl, (allDay_detection noDetect noExtract calendarStub "acct" allDayEvent
      allDayParsed { date := some "2024-01-01" } { date := some "2024-01-02" }
      rfl rfl rfl).1 rfl⟩

/-! ## Claim C9 -/

/-- C9: a parsed event's `response` is exactly the parsed status and
comment of the attendee flagged `self`, and is absent when no attendee is
flagged `self`. -/
theorem response_only_from_self_attendee
    (detect : String → Option MeetingService)
    (extract : String → List String) (calendar : Calendar)
    (accountId : String) (event : GoogleCalendarEvent) (ce : CalendarEvent)
    (hp : parseGoogleCalendarEvent detect extract calendar accountId event
      = some ce) :
    ce.response = ((event.attendees.getD []).find? (·.self)).map
        (fun a =>
          { status := parseGoogleCalendarAttendeeStatus a.responseStatus
            comment := a.comment })
    ∧ ((event.attendees.getD []).find? (·.self) = none →
        ce.response = none) := by
  unfold parseGoogleCalendarEvent at hp
  rcases hsv : eventStartValue event with _ | s <;>
    rcases hev : eventEndValue event with _ | e <;> rw [hsv, hev] at hp
  · exact Option.noConfusion hp
  · exact Option.noConfusion hp
  · exact Option.noConfusion hp
  injection hp with hp
  subst hp
  refine ⟨rfl, fun hnone => ?_⟩
  show parseResponseStatus event = none
  unfold parseResponseStatus
  rw [hnone]
  rfl

/-- Event payload with one non-self attendee and one self attendee. -/
def selfAttendeeEvent : GoogleCalendarEvent :=
  { start := some { date := some "2024-01-01" }
    endTime := some { date := some "2024-01-02" }
    attendees := some
      [{ responseStatus := .accepted },
       { responseStatus := .tentative, self := true, comment := some "maybe" }] }

/-- The parse of `selfAttendeeEvent`. -/
def selfAttendeeParsed : CalendarEvent :=
  { start := TemporalValue.plainDate "2024-01-01"
    endTime := TemporalValue.plainDate "2024-01-02"
    allDay := true
    attendees :=
      [{ status := .accepted, type := .required },
       { status := .tentative, type := .required, comment := some "maybe" }]
    accountId := "acct"
    calendarId := "cal"
    readOnly := false
    response := some { status := .tentative, comment := some "maybe" } }

/-- Witness for C9 on a concrete event with a self attendee. -/
theorem response_only_from_self_attendee_witness :
    parseGoogleCalendarEvent noDetect noExtract calendarStub "acct"
        selfAttendeeEvent = some selfAttendeeParsed
    ∧ selfAttendeeParsed.response
      = some { status := .tentative, comment := some "maybe" } := by
  refine ⟨rfl, ?_⟩
  rw [(response_only_from_self_attendee noDetect noExtract calendarStub
    "acct" selfAttendeeEvent selfAttendeeParsed rfl).1]
  rfl

/-! ## Claim C1 -/

/-- The claim-relevant data of a conference entry point: join URL value and
the three codes. -/
def entryCodes (p : ConferenceEntryPoint) :
    String × Option String × Option String × Option String :=
  (p.joinUrl.value, p.meetingCode, p.accessCode, p.password)

/-- An outbound phone entry's URI is always truthy. -/
theorem phoneEntryOf_uri_truthy (p : ConferenceEntryPoint) :
    truthy (phoneEntryOf p).uri = true := by
  have hne : (if strStartsWith p.joinUrl.value "tel:" then p.joinUrl.value
      else "tel:" ++ p.joinUrl.value) ≠ "" := by
    by_cases h : strStartsWith p.joinUrl.value "tel:" = true
    · rw [if_pos h]
      intro heq
      rw [heq] at h
      exact absurd h (by decide)
    · rw [if_neg h]
      intro heq
      have hd := congrArg String.data heq
      rw [String.data_append] at hd
      simp at hd
  simp [phoneEntryOf, truthy, hne]

/-- Finding the first video-typed entry in the outbound list yields the
head of the video segment. -/
theorem find_video_on_outbound (tj : String → String) (c : Conference) :
    (videoEntriesOf tj c ++ sipEntriesOf c ++ phoneEntriesOf c).find?
        (fun e => e.entryPointType == "video")
      = (videoEntriesOf tj c).head? := by
  have hrest : (sipEntriesOf c ++ phoneEntriesOf c).find?
      (fun e => e.entryPointType == "video") = none := by
    rw [List.find?_eq_none]
    intro x hx
    rcases List.mem_append.mp hx with hxs | hxp
    · rw [sipEntriesOf_type c x hxs]
      decide
    · rw [phoneEntriesOf_eq_map] at hxp
      rcases List.mem_map.mp hxp with ⟨p, _, rfl⟩
      simp [phoneEntryOf]
  rcases hve : videoEntriesOf tj c with _ | ⟨e, rest⟩
  · rw [List.nil_append, hrest]
    rfl
  · have he : e.entryPointType = "video" :=
      videoEntriesOf_type tj c e (by rw [hve]; exact List.mem_cons_self e rest)
    rw [List.cons_append]
    simp [List.find?, he]

/-- Finding the first sip-typed entry in the outbound list yields the head
of the sip segment. -/
theorem find_sip_on_outbound (tj : String → String) (c : Conference) :
    (videoEntriesOf tj c ++ sipEntriesOf c ++ phoneEntriesOf c).find?
        (fun e => e.entryPointType == "sip")
      = (sipEntriesOf c).head? := by
  have hvid : (videoEntriesOf tj c).find?
      (fun e => e.entryPointType == "sip") = none := by
    rw [List.find?_eq_none]
    intro x hx
    rw [videoEntriesOf_type tj c x hx]
    decide
  have hpho : (phoneEntriesOf c).find?
      (fun e => e.entryPointType == "sip") = none := by
    rw [List.find?_eq_none]
    intro x hx
    rw [phoneEntriesOf_eq_map] at hx
    rcases List.mem_map.mp hx with ⟨p, _, rfl⟩
    simp [phoneEntryOf]
  rw [List.find?_append, List.find?_append, hvid, hpho]
  rcases hse : sipEntriesOf c with _ | ⟨e, rest⟩
  · simp
  · have he : e.entryPointType = "sip" :=
      sipEntriesOf_type c e (by rw [hse]; exact List.mem_cons_self e rest)
    simp [List.find?, he]

/-- Filtering the outbound list for truthy-URI phone entries yields exactly
its phone segment. -/
theorem filter_phone_on_outbound (tj : String → String) (c : Conference) :
    (videoEntriesOf tj c ++ sipEntriesOf c ++ phoneEntriesOf c).filter
        (fun e => e.entryPointType == "phone" && truthy e.uri)
      = (c.phone.getD []).map phoneEntryOf := by
  rw [List.filter_append, List.filter_append]
  have h1 : (videoEntriesOf tj c).filter
      (fun e => e.entryPointType == "phone" && truthy e.uri) = [] := by
    rw [List.filter_eq_nil_iff]
    intro x hx
    rw [videoEntriesOf_type tj c x hx]
    have hb : (("video" == "phone") : Bool) = false := by decide
    rw [hb, Bool.false_and]
    decide
  have h2 : (sipEntriesOf c).filter
      (fun e => e.entryPointType == "phone" && truthy e.uri) = [] := by
    rw [List.filter_eq_nil_iff]
    intro x hx
    rw [sipEntriesOf_type c x hx]
    have hb : (("sip" == "phone") : Bool) = false := by decide
    rw [hb, Bool.false_and]
    decide
  have h3 : (phoneEntriesOf c).filter
      (fun e => e.entryPointType == "phone" && truthy e.uri)
      = phoneEntriesOf c := by
    rw [List.filter_eq_self]
    intro x hx
    rw [phoneEntriesOf_eq_map] at hx
    rcases List.mem_map.mp hx with ⟨p, _, rfl⟩
    rw [phoneEntryOf_uri_truthy]
    rfl
  rw [h1, h2, h3, phoneEntriesOf_eq_map, List.nil_append, List.nil_append]

/-- The parsed video entry of an outbound payload, projected to its
claim-relevant data. -/
theorem parsedVideoEntry_on_outbound (tj : String → String)
    (c : Conference) :
    ((parsedVideoEntry (videoEntriesOf tj c ++ sipEntriesOf c
        ++ phoneEntriesOf c)).map entryCodes)
      = c.video.bind (fun v => if v.joinUrl.value != "" then
          some (v.joinUrl.value, keepTruthy v.meetingCode,
            keepTruthy v.meetingCode, keepTruthy v.password)
        else none) := by
  unfold parsedVideoEntry
  rw [find_video_on_outbound]
  rcases hv : c.video with _ | v
  · simp [videoEntriesOf, hv]
  · unfold videoEntriesOf
    rw [hv]
    cases hval : (v.joinUrl.value != "")
    · have hveq : v.joinUrl.value = "" := by simpa using hval
      simp [hval, hveq]
    · have hvne : ¬ v.joinUrl.value = "" := by simpa using hval
      simp [hval, entryCodes, truthy, hvne]

/-- The parsed sip entry of an outbound payload, projected to its
claim-relevant data. -/
theorem parsedSipEntry_on_outbound (tj : String → String) (c : Conference) :
    ((parsedSipEntry (videoEntriesOf tj c ++ sipEntriesOf c
        ++ phoneEntriesOf c)).map entryCodes)
      = c.sip.bind (fun s => if s.joinUrl.value != "" then
          some (s.joinUrl.value, keepTruthy s.meetingCode,
            keepTruthy s.meetingCode, keepTruthy s.password)
        else none) := by
  unfold parsedSipEntry
  rw [find_sip_on_outbound]
  rcases hs : c.sip with _ | s
  · simp [sipEntriesOf, hs]
  · unfold sipEntriesOf
    rw [hs]
    cases hval : (s.joinUrl.value != "")
    · have hseq : s.joinUrl.value = "" := by simpa using hval
      simp [hval, hseq]
    · have hsne : ¬ s.joinUrl.value = "" := by simpa using hval
      simp [hval, entryCodes, truthy, hsne]

/-- The parsed phone entries of an outbound payload, projected to their
claim-relevant data: URIs are `tel:`-normalised, only the access code
survives. -/
theorem parsedPhoneEntries_on_outbound (tj : String → String)
    (c : Conference) :
    (((parsedPhoneEntries (videoEntriesOf tj c ++ sipEntriesOf c
        ++ phoneEntriesOf c)).getD []).map entryCodes)
      = (c.phone.getD []).map (fun p =>
          ((if strStartsWith p.joinUrl.value "tel:" then p.joinUrl.value
            else "tel:" ++ p.joinUrl.value), (none : Option String),
            keepTruthy p.accessCode, (none : Option String))) := by
  unfold parsedPhoneEntries
  rw [filter_phone_on_outbound]
  rcases hp : c.phone.getD [] with _ | ⟨p, ps⟩
  · simp
  · simp only [List.map_cons, List.length_cons, Nat.succ_pos, if_pos,
      Option.getD_some, List.map_map]
    rfl

/-- A conference whose round trip loses data: the video entry's
`accessCode` is never emitted outbound, and the phone join URL gains a
`tel:` prefix. -/
def lossyConf : Conference :=
  { video := some { joinUrl := { value := "https://example.com/x" }
                    accessCode := some "42" }
    phone := some [{ joinUrl := { value := "555" } }] }

/-- The outbound payload of `lossyConf`, wrapped in an event. -/
def lossyRoundTripEvent : GoogleCalendarEvent :=
  { conferenceData := some (toGoogleCalendarConferenceData id lossyConf) }

/-- C1 counterexample: round-tripping `lossyConf` through the outbound map
and the structured inbound branch returns a video entry whose `accessCode`
is gone (the input had `"42"`) and a phone entry whose join URL is
`"tel:555"` (the input had `"555"`): neither the codes nor the join URLs
all survive. -/
theorem conference_roundtrip_counterexample :
    ((parseGoogleCalendarConferenceData noDetect noExtract
        lossyRoundTripEvent).bind (·.video)).map (·.accessCode) = some none
    ∧ lossyConf.video.map (·.accessCode) = some (some "42")
    ∧ ((parseGoogleCalendarConferenceData noDetect noExtract
        lossyRoundTripEvent).bind (·.phone)).map
          (fun l => l.map (·.joinUrl.value)) = some ["tel:555"]
    ∧ lossyConf.phone.map (fun l => l.map (·.joinUrl.value))
      = some ["555"] := by
  refine ⟨by decide, rfl, by decide, rfl⟩

/-- C1 (amended): round-tripping any conference with at least one entry
point through the outbound map and the structured inbound branch preserves
the video and sip join URLs, meeting codes and passwords (up to dropping
empty strings); the video and sip `accessCode` come back equal to the
input's `meetingCode`, not its `accessCode`; phone join URLs come back
`tel:`-normalised, the phone `accessCode` survives, and phone
`meetingCode`/`password` do not. -/
theorem conference_roundtrip_characterised
    (detect : String → Option MeetingService)
    (extract : String → List String) (tj : String → String)
    (c : Conference) (event : GoogleCalendarEvent)
    (hcd : event.conferenceData = some (toGoogleCalendarConferenceData tj c))
    (hne : (toGoogleCalendarConferenceData tj c).entryPoints ≠ none) :
    (((parseGoogleCalendarConferenceData detect extract event).bind
        (·.video)).map entryCodes)
      = c.video.bind (fun v => if v.joinUrl.value != "" then
          some (v.joinUrl.value, keepTruthy v.meetingCode,
            keepTruthy v.meetingCode, keepTruthy v.password)
        else none)
    ∧ (((parseGoogleCalendarConferenceData detect extract event).bind
        (·.sip)).map entryCodes)
      = c.sip.bind (fun s => if s.joinUrl.value != "" then
          some (s.joinUrl.value, keepTruthy s.meetingCode,
            keepTruthy s.meetingCode, keepTruthy s.password)
        else none)
    ∧ ((((parseGoogleCalendarConferenceData detect extract event).bind
        (·.phone)).getD []).map entryCodes)
      = (c.phone.getD []).map (fun p =>
          ((if strStartsWith p.joinUrl.value "tel:" then p.joinUrl.value
            else "tel:" ++ p.joinUrl.value), (none : Option String),
            keepTruthy p.accessCode, (none : Option String))) := by
  have hlist : (event.conferenceData.bind (·.entryPoints)).getD []
      = videoEntriesOf tj c ++ sipEntriesOf c ++ phoneEntriesOf c := by
    rw [hcd]
    exact entryPoints_getD tj c
  have hlen0 : ¬((videoEntriesOf tj c ++ sipEntriesOf c
      ++ phoneEntriesOf c).length = 0) := by
    intro h0
    apply hne
    have hlens := h0
    rw [List.length_append, List.length_append] at hlens
    have hV : videoEntriesOf tj c = [] := List.length_eq_zero.mp (by omega)
    have hS : sipEntriesOf c = [] := List.length_eq_zero.mp (by omega)
    have hP : phoneEntriesOf c = [] := List.length_eq_zero.mp (by omega)
    simp [toGoogleCalendarConferenceData, hV, hS, hP]
  have hparse : parseGoogleCalendarConferenceData detect extract event
      = some
        { id := parsedVideoId detect (videoEntriesOf tj c ++ sipEntriesOf c
            ++ phoneEntriesOf c)
          conferenceId := event.conferenceData.bind (·.conferenceId)
          name := (event.conferenceData.bind (·.conferenceSolution)).map
            (·.name)
          video := parsedVideoEntry (videoEntriesOf tj c ++ sipEntriesOf c
            ++ phoneEntriesOf c)
          sip := parsedSipEntry (videoEntriesOf tj c ++ sipEntriesOf c
            ++ phoneEntriesOf c)
          phone := parsedPhoneEntries (videoEntriesOf tj c ++ sipEntriesOf c
            ++ phoneEntriesOf c) } := by
    unfold parseGoogleCalendarConferenceData
    simp only [hlist]
    rw [if_neg hlen0]
  rw [hparse]
  refine ⟨?_, ?_, ?_⟩
  · simpa using parsedVideoEntry_on_outbound tj c
  · simpa using parsedSipEntry_on_outbound tj c
  · simpa using parsedPhoneEntries_on_outbound tj c

/-- Witness for the amended C1 at `lossyConf`: the phone data comes back
`tel:`-normalised with its access code. -/
theorem conference_roundtrip_characterised_witness :
    lossyRoundTripEvent.conferenceData
        = some (toGoogleCalendarConferenceData id lossyConf)
    ∧ (toGoogleCalendarConferenceData id lossyConf).entryPoints ≠ none
    ∧ ((((parseGoogleCalendarConferenceData noDetect noExtract
        lossyRoundTripEvent).bind (·.phone)).getD []).map entryCodes)
      = (lossyConf.phone.getD []).map (fun p =>
          ((if strStartsWith p.joinUrl.value "tel:" then p.joinUrl.value
            else "tel:" ++ p.joinUrl.value), (none : Option String),
            keepTruthy p.accessCode, (none : Option String))) :=
  ⟨rfl, by decide,
    (conference_roundtrip_characterised noDetect noExtract id lossyConf
      lossyRoundTripEvent rfl (by decide)).2.2⟩
